import Mathlib

/-!
Verification of the TypeChat language-model adapter (`model.ts`, with its
compiled counterpart `dist/model.js`).

The development shallowly embeds the code:
* JSON values are modelled by `JsonValue` (JS `null`/`undefined` merged into
  `JsonValue.null`, since both trigger `??` / `?.` and both fault on member
  access).
* JS property and index access, with their fault behaviour on
  `null`/`undefined`, are `jsGet` and `jsIndex` returning `Except`.
* The retry loop of `complete` is `completeAux`, recursing on the number of
  retries still allowed (`retryMaxAttempts - retryCount`, which the loop
  strictly decreases on every transient failure).
* The HTTP transport is abstracted as a function from the attempt index and
  the posted request body to a response.
-/

/-- JSON-like runtime values exchanged with the REST endpoint. -/
inductive JsonValue where
  | null
  | str (s : String)
  | num (n : ℚ)
  | bool (b : Bool)
  | arr (elems : List JsonValue)
  | obj (fields : List (String × JsonValue))
  deriving Repr

/-- Look a key up in the field list of a JS object (first occurrence wins);
`none` models JS `undefined` for a missing property. -/
def lookupField (fields : List (String × JsonValue)) (k : String) : Option JsonValue :=
  (fields.find? (fun p => p.1 == k)).map (fun p => p.2)

/-- JS object-spread update: `{...o, k: v}` replaces `k` in place when present,
otherwise appends it. -/
def setField (fields : List (String × JsonValue)) (k : String) (v : JsonValue) :
    List (String × JsonValue) :=
  if fields.any (fun p => p.1 == k) then
    fields.map (fun p => if p.1 == k then (k, v) else p)
  else
    fields ++ [(k, v)]

/-- JS property access `v.k`: faults on `null`/`undefined`, yields the field
(or `undefined`, modelled as `.null`) on objects, and `undefined` on other
primitives. -/
def jsGet (v : JsonValue) (k : String) : Except String JsonValue :=
  match v with
  | .null => .error ("TypeError: cannot read properties of null or undefined (reading " ++ k ++ ")")
  | .obj fields => .ok ((lookupField fields k).getD .null)
  | _ => .ok .null

/-- JS index access `v[i]`: faults on `null`/`undefined`, yields the element
(or `undefined`) on arrays, `undefined` otherwise. -/
def jsIndex (v : JsonValue) (i : Nat) : Except String JsonValue :=
  match v with
  | .null => .error "TypeError: cannot read properties of null or undefined (indexing)"
  | .arr elems => .ok (elems.getD i .null)
  | _ => .ok .null

/-- The OpenAI-style completion extraction
`result.data.choices[0].message?.content ?? ""` from `complete`:
only the `message` step is optional-chained, so absence of `choices` or of
`choices[0]` faults, while a nullish `message` or `content` falls back to `""`. -/
def extractOpenAI (data : JsonValue) : Except String JsonValue := do
  let choices ← jsGet data "choices"
  let c0 ← jsIndex choices 0
  let msg ← jsGet c0 "message"
  match msg with
  | .null => pure (.str "")
  | _ =>
    let content ← jsGet msg "content"
    match content with
    | .null => pure (.str "")
    | v => pure v

/-- The generate-style completion extraction
`result.data.generations[0].text` from `complete` (no fallback). -/
def extractGenerate (data : JsonValue) : Except String JsonValue := do
  let gens ← jsGet data "generations"
  let g0 ← jsIndex gens 0
  jsGet g0 "text"

/-- `isTransientHttpError` from `model.ts`: the `switch` returns `true` for
429, 500, 502, 503, 504 and falls through to `false` otherwise. -/
def isTransientHttpError (code : Int) : Bool :=
  if code == 429 || code == 500 || code == 502 || code == 503 || code == 504 then
    true
  else
    false

/-- The request body built on each iteration of `complete` in `model.ts`
(the TypeScript source): `defaultParams` spread first, then the provider-shape
fields, then `temperature: 0.2`. -/
def buildParams (isOpenAI : Bool) (defaultParams : List (String × JsonValue))
    (prompt : String) : List (String × JsonValue) :=
  let withShape :=
    if isOpenAI then
      setField
        (setField defaultParams "messages"
          (.arr [.obj [("role", .str "user"), ("content", .str prompt)]]))
        "n" (.num 1)
    else
      setField
        (setField
          (setField
            (setField defaultParams "prompt" (.str prompt))
            "k" (.num 0))
          "stop_sequences" (.arr []))
        "return_likelihoods" (.str "NONE")
  setField withShape "temperature" (.num (1 / 5))

/-- The request body built on each iteration of `complete` in the compiled
`dist/model.js`: identical to the source except `temperature: 0`. -/
def buildParamsDist (isOpenAI : Bool) (defaultParams : List (String × JsonValue))
    (prompt : String) : List (String × JsonValue) :=
  let withShape :=
    if isOpenAI then
      setField
        (setField defaultParams "messages"
          (.arr [.obj [("role", .str "user"), ("content", .str prompt)]]))
        "n" (.num 1)
    else
      setField
        (setField
          (setField
            (setField defaultParams "prompt" (.str prompt))
            "k" (.num 0))
          "stop_sequences" (.arr []))
        "return_likelihoods" (.str "NONE")
  setField withShape "temperature" (.num 0)

/-- An HTTP response as seen through axios with `validateStatus: () => true`
(every status is delivered, never thrown). -/
structure HttpResponse where
  status : Int
  statusText : String
  data : JsonValue
  deriving Repr

/-- The transport: attempt index and posted request body to response. -/
abbrev Transport := Nat → List (String × JsonValue) → HttpResponse

/-- `Result<string>` from `result.ts`: `success(data)` or `error(message)`.
The success payload is kept as a `JsonValue` because the extraction can hand
`success` a non-string value. -/
inductive Result where
  | success (data : JsonValue)
  | error (message : String)
  deriving Repr

/-- Observable behaviour of one `complete` call: the value it settles with
(`Except.error` models a thrown runtime `TypeError`, `Except.ok` a returned
`Result`), the number of HTTP attempts posted, and the list of sleep
durations in order. -/
structure CompleteOutcome where
  result : Except String Result
  attempts : Nat
  sleeps : List Nat
  deriving Repr

/-- The error message `REST API error status: statusText` built by
`complete` on a non-retried failure. -/
def restApiErrorMessage (status : Int) (statusText : String) : String :=
  "REST API error " ++ toString status ++ ": " ++ statusText

/-- One unrolling of the `while (true)` retry loop of `complete`, recursing on
the number of retries still allowed (`retryMaxAttempts - retryCount`):
post the body, return the extracted completion on status 200, return
`Result.error` when the status is not transient or no retries remain,
otherwise sleep and loop. -/
def completeAux (isOpenAI : Bool) (params : List (String × JsonValue))
    (retryPauseMs : Nat) (transport : Transport) :
    Nat → Nat → CompleteOutcome
  | attempt, 0 =>
    let resp := transport attempt params
    if resp.status == 200 then
      { result := (if isOpenAI then extractOpenAI resp.data else extractGenerate resp.data).map
          Result.success,
        attempts := 1, sleeps := [] }
    else
      { result := .ok (.error (restApiErrorMessage resp.status resp.statusText)),
        attempts := 1, sleeps := [] }
  | attempt, r + 1 =>
    let resp := transport attempt params
    if resp.status == 200 then
      { result := (if isOpenAI then extractOpenAI resp.data else extractGenerate resp.data).map
          Result.success,
        attempts := 1, sleeps := [] }
    else if isTransientHttpError resp.status then
      let rest := completeAux isOpenAI params retryPauseMs transport (attempt + 1) r
      { result := rest.result, attempts := rest.attempts + 1,
        sleeps := retryPauseMs :: rest.sleeps }
    else
      { result := .ok (.error (restApiErrorMessage resp.status resp.statusText)),
        attempts := 1, sleeps := [] }

/-- `complete` from `createAxiosLanguageModel`: builds the request body,
then runs the retry loop starting with `retryCount = 0`, i.e. with
`retryMaxAttempts` retries still allowed. -/
def complete (isOpenAI : Bool) (defaultParams : List (String × JsonValue))
    (retryMaxAttempts retryPauseMs : Nat) (transport : Transport)
    (prompt : String) : CompleteOutcome :=
  completeAux isOpenAI (buildParams isOpenAI defaultParams prompt) retryPauseMs
    transport 0 retryMaxAttempts

/-- JS truthiness of an environment variable value (`undefined` and `""` are
falsy, every non-empty string is truthy). -/
def truthy : Option String → Bool
  | some s => !(s == "")
  | none => false

/-- The provider configuration a factory call would capture: which factory
was dispatched to and with which arguments. -/
inductive ModelSpec where
  | openAI (apiKey model endPoint org : String)
  | azure (apiKey endPoint : String)
  | cohere (apiKey model endPoint maxTokens : String)
  deriving Repr

/-- `missingEnvironmentVariable`: the thrown construction-time fault. -/
def missingEnvironmentVariable (name : String) : Except String ModelSpec :=
  .error ("Missing environment variable: " ++ name)

/-- `v ?? missingEnvironmentVariable name`: `??` fires only on
`null`/`undefined`, so an empty string passes through. -/
def coalesceOrThrow (v : Option String) (name : String) : Except String String :=
  match v with
  | some s => .ok s
  | none => .error ("Missing environment variable: " ++ name)

/-- `createLanguageModel` from `model.ts`: dispatch on the first truthy
credential key in order OPENAI, AZURE, COHERE; throw when a `??`-guarded
companion variable is `undefined`, or when no key is truthy. -/
def createLanguageModel (env : String → Option String) : Except String ModelSpec :=
  if truthy (env "OPENAI_API_KEY") then do
    let apiKey ← coalesceOrThrow (env "OPENAI_API_KEY") "OPENAI_API_KEY"
    let model ← coalesceOrThrow (env "OPENAI_MODEL") "OPENAI_MODEL"
    let endPoint := (env "OPENAI_ENDPOINT").getD "https://api.openai.com/v1/chat/completions"
    let org := (env "OPENAI_ORGANIZATION").getD ""
    pure (.openAI apiKey model endPoint org)
  else if truthy (env "AZURE_OPENAI_API_KEY") then do
    let apiKey ← coalesceOrThrow (env "AZURE_OPENAI_API_KEY") "AZURE_OPENAI_API_KEY"
    let endPoint ← coalesceOrThrow (env "AZURE_OPENAI_ENDPOINT") "AZURE_OPENAI_ENDPOINT"
    pure (.azure apiKey endPoint)
  else if truthy (env "COHERE_API_KEY") then do
    let apiKey ← coalesceOrThrow (env "COHERE_API_KEY") "COHERE_API_KEY"
    let endPoint := (env "COHERE_ENDPOINT").getD "https://api.cohere.ai/v1/generate"
    let maxTokens := (env "MAX_TOKENS").getD "500"
    pure (.cohere apiKey "command" endPoint maxTokens)
  else
    missingEnvironmentVariable "OPENAI_API_KEY or AZURE_OPENAI_API_KEY or COHERE_API_KEY"

/-- A well-formed OpenAI-style response body whose completion is `c`:
`{choices: [{message: {content: c}}]}`. -/
def mkOpenAIResponse (c : String) : JsonValue :=
  .obj [("choices", .arr [.obj [("message", .obj [("content", .str c)])]])]

/-! ### Helper lemmas: field lookup through object-spread updates -/

lemma find?_map_setkey (ps : List (String × JsonValue)) (k : String) (v : JsonValue) :
    (ps.map (fun p => if p.1 == k then (k, v) else p)).find? (fun p => p.1 == k) =
      if ps.any (fun p => p.1 == k) then some (k, v) else none := by
  induction ps with
  | nil => rfl
  | cons p ps ih =>
    rw [List.map_cons, List.find?_cons, ih, List.any_cons]
    by_cases h : p.1 = k
    · simp [h]
    · have hb : (p.1 == k) = false := beq_eq_false_iff_ne.mpr h
      simp only [hb, Bool.false_or]
      simp [hb]

lemma find?_map_setkey_ne (ps : List (String × JsonValue)) (k k2 : String) (v : JsonValue)
    (h : k2 ≠ k) :
    (ps.map (fun p => if p.1 == k then (k, v) else p)).find? (fun p => p.1 == k2) =
      ps.find? (fun p => p.1 == k2) := by
  induction ps with
  | nil => rfl
  | cons p ps ih =>
    rw [List.map_cons, List.find?_cons, ih]
    by_cases hk : p.1 = k
    · have hb : (k == k2) = false := beq_eq_false_iff_ne.mpr (Ne.symm h)
      simp [List.find?_cons, hk, hb]
    · have hbk : (p.1 == k) = false := beq_eq_false_iff_ne.mpr hk
      by_cases hp2 : p.1 = k2
      · have hb : (p.1 == k2) = true := beq_iff_eq.mpr hp2
        simp [List.find?_cons, hbk, hb]
      · have hb2 : (p.1 == k2) = false := beq_eq_false_iff_ne.mpr hp2
        simp [List.find?_cons, hbk, hb2]

lemma lookupField_setField_self (fields : List (String × JsonValue)) (k : String)
    (v : JsonValue) : lookupField (setField fields k v) k = some v := by
  unfold setField lookupField
  by_cases h : fields.any (fun p => p.1 == k) = true
  · rw [if_pos h, find?_map_setkey, if_pos h]
    rfl
  · rw [if_neg h, List.find?_append]
    have hnone : fields.find? (fun p => p.1 == k) = none := by
      rw [List.find?_eq_none]
      intro x hx hpx
      exact h (List.any_eq_true.mpr ⟨x, hx, hpx⟩)
    simp [hnone]

lemma lookupField_setField_ne (fields : List (String × JsonValue)) (k k2 : String)
    (v : JsonValue) (h : k2 ≠ k) :
    lookupField (setField fields k v) k2 = lookupField fields k2 := by
  unfold setField lookupField
  by_cases ha : fields.any (fun p => p.1 == k) = true
  · rw [if_pos ha, find?_map_setkey_ne _ _ _ _ h]
  · rw [if_neg ha, List.find?_append]
    have h2 : ([((k, v) : String × JsonValue)].find? (fun p => p.1 == k2)) = none := by
      simp [Ne.symm h]
    rw [h2]
    cases fields.find? (fun p => p.1 == k2) <;> rfl

/-! ### Claim theorems -/

/-- C7: for every integer HTTP status code, `isTransientHttpError` returns
`true` exactly for 429, 500, 502, 503, 504, and `false` for every other
code (all 2xx and the remaining 4xx included). -/
theorem isTransientHttpError_iff (code : Int) :
    isTransientHttpError code = true ↔
      code = 429 ∨ code = 500 ∨ code = 502 ∨ code = 503 ∨ code = 504 := by
  simp [isTransientHttpError, or_assoc]

/-- C5: the request body built on each attempt of `complete` is exactly
`defaultParams` extended, for the OpenAI style, with
`messages = [{role: "user", content: prompt}]`, `n = 1` and the fixed
temperature constant, and, for the generate style, with `prompt`, `k = 0`,
`stop_sequences = []`, `return_likelihoods = "NONE"` and the same fixed
temperature constant; every other key keeps its `defaultParams` value. -/
theorem buildParams_extends_defaultParams (defaultParams : List (String × JsonValue))
    (prompt : String) :
    (∀ k, lookupField (buildParams true defaultParams prompt) k =
       if k = "messages" then
         some (.arr [.obj [("role", .str "user"), ("content", .str prompt)]])
       else if k = "n" then some (.num 1)
       else if k = "temperature" then some (.num (1 / 5))
       else lookupField defaultParams k) ∧
    (∀ k, lookupField (buildParams false defaultParams prompt) k =
       if k = "prompt" then some (.str prompt)
       else if k = "k" then some (.num 0)
       else if k = "stop_sequences" then some (.arr [])
       else if k = "return_likelihoods" then some (.str "NONE")
       else if k = "temperature" then some (.num (1 / 5))
       else lookupField defaultParams k) := by
  constructor
  · intro k
    by_cases h1 : k = "messages"
    · subst h1
      simp [buildParams, lookupField_setField_self, lookupField_setField_ne]
    · by_cases h2 : k = "n"
      · subst h2
        simp [buildParams, lookupField_setField_self, lookupField_setField_ne]
      · by_cases h3 : k = "temperature"
        · subst h3
          simp [buildParams, lookupField_setField_self, lookupField_setField_ne]
        · simp [buildParams, lookupField_setField_ne, h1, h2, h3]
  · intro k
    by_cases h1 : k = "prompt"
    · subst h1
      simp [buildParams, lookupField_setField_self, lookupField_setField_ne]
    · by_cases h2 : k = "k"
      · subst h2
        simp [buildParams, lookupField_setField_self, lookupField_setField_ne]
      · by_cases h3 : k = "stop_sequences"
        · subst h3
          simp [buildParams, lookupField_setField_self, lookupField_setField_ne]
        · by_cases h4 : k = "return_likelihoods"
          · subst h4
            simp [buildParams, lookupField_setField_self, lookupField_setField_ne]
          · by_cases h5 : k = "temperature"
            · subst h5
              simp [buildParams, lookupField_setField_self, lookupField_setField_ne]
            · simp [buildParams, lookupField_setField_ne, h1, h2, h3, h4, h5]

/-- C6: round-trip for the OpenAI style. The request built for a prompt
carries exactly `[{role: "user", content: prompt}]` under `messages`, and
extracting the completion from a well-formed response whose
`choices[0].message.content` is `c` yields back exactly `c`. -/
theorem openAI_request_response_roundtrip (prompt c : String)
    (defaultParams : List (String × JsonValue)) :
    lookupField (buildParams true defaultParams prompt) "messages" =
      some (.arr [.obj [("role", .str "user"), ("content", .str prompt)]]) ∧
    extractOpenAI (mkOpenAIResponse c) = Except.ok (.str c) := by
  constructor
  · simp [buildParams, lookupField_setField_self, lookupField_setField_ne]
  · rfl

/-- C9 counterexample: at `isOpenAI = true`, empty `defaultParams` and
prompt `"p"`, the request body of the TypeScript source differs from the
request body of the compiled `dist/model.js` (the `temperature` field is
`0.2` in the source and `0` in the build). -/
theorem buildParams_ne_buildParamsDist :
    buildParams true [] "p" ≠ buildParamsDist true [] "p" := by
  intro h
  have hsrc : lookupField (buildParams true [] "p") "temperature" =
      some (.num (1 / 5)) := rfl
  have hdist : lookupField (buildParamsDist true [] "p") "temperature" =
      some (.num 0) := rfl
  rw [h, hdist] at hsrc
  have : (0 : ℚ) = 1 / 5 := by
    injection hsrc with h2
    injection h2
  norm_num at this

/-- C9 amended: the source and compiled request bodies agree on every field
except `temperature`, which is the constant `0.2` in the TypeScript source
and `0` in the compiled `dist/model.js`. -/
theorem buildParams_dist_agree_except_temperature (isOpenAI : Bool)
    (defaultParams : List (String × JsonValue)) (prompt : String) :
    (∀ k, k ≠ "temperature" →
       lookupField (buildParams isOpenAI defaultParams prompt) k =
         lookupField (buildParamsDist isOpenAI defaultParams prompt) k) ∧
    lookupField (buildParams isOpenAI defaultParams prompt) "temperature" =
      some (.num (1 / 5)) ∧
    lookupField (buildParamsDist isOpenAI defaultParams prompt) "temperature" =
      some (.num 0) := by
  refine ⟨fun k hk => ?_, ?_, ?_⟩
  · rw [buildParams, buildParamsDist,
      lookupField_setField_ne _ _ _ _ hk, lookupField_setField_ne _ _ _ _ hk]
  · rw [buildParams, lookupField_setField_self]
  · rw [buildParamsDist, lookupField_setField_self]

/-- C9 witness: the agreement theorem applied at `isOpenAI = true`, empty
`defaultParams`, prompt `"p"` and the key `"messages"`. -/
theorem buildParams_dist_agree_witness :
    lookupField (buildParams true [] "p") "messages" =
      lookupField (buildParamsDist true [] "p") "messages" ∧
    lookupField (buildParams true [] "p") "temperature" = some (.num (1 / 5)) ∧
    lookupField (buildParamsDist true [] "p") "temperature" = some (.num 0) :=
  ⟨(buildParams_dist_agree_except_temperature true [] "p").1 "messages" (by decide),
   (buildParams_dist_agree_except_temperature true [] "p").2.1,
   (buildParams_dist_agree_except_temperature true [] "p").2.2⟩

lemma bind_ok_eq {α β : Type} (a : α) (f : α → Except String β) :
    (Bind.bind (Except.ok a) f : Except String β) = f a := rfl

lemma pure_eq_ok {α : Type} (a : α) : (pure a : Except String α) = Except.ok a := rfl

lemma bind_error_eq {α β : Type} (e : String) (f : α → Except String β) :
    (Bind.bind (Except.error e : Except String α) f) = Except.error e := rfl

/-- C2 counterexample: a 200 response whose body is `{choices: []}` leaves a
part of the expected path absent (`choices[0]` is undefined), yet the
OpenAI-style extraction inside `complete` throws a `TypeError` instead of
returning `Result.success ""`. -/
theorem complete_openAI_absent_choices_faults :
    (complete true [] 3 1000 (fun _ _ => ⟨200, "OK", .obj [("choices", .arr [])]⟩)
        "p").result =
      Except.error
        "TypeError: cannot read properties of null or undefined (reading message)" ∧
    (complete true [] 3 1000 (fun _ _ => ⟨200, "OK", .obj [("choices", .arr [])]⟩)
        "p").result ≠
      Except.ok (.success (.str "")) := by
  have h0 : (complete true [] 3 1000
      (fun _ _ => ⟨200, "OK", .obj [("choices", .arr [])]⟩) "p").result =
      Except.error
        "TypeError: cannot read properties of null or undefined (reading message)" := rfl
  refine ⟨h0, ?_⟩
  rw [h0]
  intro h
  exact Except.noConfusion h

/-- C2 amended: on the OpenAI path, the fallback to the empty string applies
exactly when the `message` or `content` step of the expected path is absent
or null (given `choices[0]` is an object); but when `choices` itself is
absent or `choices` is empty, the unguarded access `choices[0].message`
throws a `TypeError` instead of signalling success. -/
theorem extractOpenAI_fallback_characterization (data : JsonValue) :
    (∀ fields rest, jsGet data "choices" = .ok (.arr (.obj fields :: rest)) →
       (lookupField fields "message" = none → extractOpenAI data = .ok (.str "")) ∧
       (lookupField fields "message" = some .null → extractOpenAI data = .ok (.str "")) ∧
       (∀ mfields, lookupField fields "message" = some (.obj mfields) →
          (lookupField mfields "content" = none → extractOpenAI data = .ok (.str "")) ∧
          (lookupField mfields "content" = some .null →
             extractOpenAI data = .ok (.str "")) ∧
          (∀ c, lookupField mfields "content" = some (.str c) →
             extractOpenAI data = .ok (.str c)))) ∧
    (jsGet data "choices" = .ok .null → ∃ e, extractOpenAI data = .error e) ∧
    (jsGet data "choices" = .ok (.arr []) → ∃ e, extractOpenAI data = .error e) := by
  refine ⟨fun fields rest hch => ?_, fun hch => ?_, fun hch => ?_⟩
  · have hstep : extractOpenAI data =
        Bind.bind (jsGet (JsonValue.obj fields) "message") (fun msg =>
          match msg with
          | .null => pure (.str "")
          | _ =>
            Bind.bind (jsGet msg "content") (fun content =>
              match content with
              | .null => pure (.str "")
              | v => pure v)) := by
      unfold extractOpenAI
      rw [hch, bind_ok_eq]
      rfl
    refine ⟨fun hmsg => ?_, fun hmsg => ?_, fun mfields hmsg => ?_⟩
    · rw [hstep]
      simp [jsGet, hmsg, bind_ok_eq, pure_eq_ok]
    · rw [hstep]
      simp [jsGet, hmsg, bind_ok_eq, pure_eq_ok]
    · refine ⟨fun hc => ?_, fun hc => ?_, fun c hc => ?_⟩
      · rw [hstep]
        simp [jsGet, hmsg, bind_ok_eq, hc, pure_eq_ok]
      · rw [hstep]
        simp [jsGet, hmsg, bind_ok_eq, hc, pure_eq_ok]
      · rw [hstep]
        simp [jsGet, hmsg, bind_ok_eq, hc, pure_eq_ok]
  · refine ⟨"TypeError: cannot read properties of null or undefined (indexing)", ?_⟩
    unfold extractOpenAI
    rw [hch, bind_ok_eq]
    rfl
  · refine ⟨"TypeError: cannot read properties of null or undefined (reading message)", ?_⟩
    unfold extractOpenAI
    rw [hch, bind_ok_eq]
    rfl

/-- C2 witness: the characterization applied at the concrete body
`{choices: [{}]}` — `message` absent, so the extraction returns
`Result.success ""` — and at `{choices: []}`, where it faults. -/
theorem extractOpenAI_fallback_witness :
    extractOpenAI (.obj [("choices", .arr [.obj []])]) = Except.ok (.str "") ∧
    ∃ e, extractOpenAI (.obj [("choices", .arr [])]) = Except.error e :=
  ⟨((extractOpenAI_fallback_characterization
      (.obj [("choices", .arr [.obj []])])).1 [] [] rfl).1 rfl,
   (extractOpenAI_fallback_characterization
      (.obj [("choices", .arr [])])).2.2 rfl⟩

lemma completeAux_all503 (isOpenAI : Bool) (params : List (String × JsonValue))
    (retryPauseMs : Nat) (transport : Transport)
    (h : ∀ n b, (transport n b).status = 503) :
    ∀ r attempt, completeAux isOpenAI params retryPauseMs transport attempt r =
      { result := .ok (.error (restApiErrorMessage 503
          ((transport (attempt + r) params).statusText))),
        attempts := r + 1,
        sleeps := List.replicate r retryPauseMs } := by
  intro r
  induction r with
  | zero =>
    intro attempt
    simp [completeAux, h]
  | succ r ih =>
    intro attempt
    have harith : attempt + 1 + r = attempt + (r + 1) := by omega
    simp [completeAux, h, isTransientHttpError, ih, harith, List.replicate_succ]

/-- C1: if the transport answers status 503 on every attempt, `complete`
returns `Result.error` after exactly `retryMaxAttempts + 1` HTTP attempts,
having slept `retryMaxAttempts` times for `retryPauseMs` each, with an
error message containing `503`. -/
theorem complete_always503_exhausts_retries (isOpenAI : Bool)
    (defaultParams : List (String × JsonValue))
    (retryMaxAttempts retryPauseMs : Nat) (transport : Transport) (prompt : String)
    (h : ∀ n b, (transport n b).status = 503) :
    ∃ msg,
      complete isOpenAI defaultParams retryMaxAttempts retryPauseMs transport prompt =
        { result := .ok (.error msg),
          attempts := retryMaxAttempts + 1,
          sleeps := List.replicate retryMaxAttempts retryPauseMs } ∧
      ∃ pre post, msg = pre ++ "503" ++ post := by
  refine ⟨restApiErrorMessage 503
      ((transport retryMaxAttempts (buildParams isOpenAI defaultParams prompt)).statusText),
    ?_, "REST API error ",
    ": " ++ (transport retryMaxAttempts
      (buildParams isOpenAI defaultParams prompt)).statusText, ?_⟩
  · rw [complete, completeAux_all503 _ _ _ _ h]
    simp
  · rw [restApiErrorMessage]
    rw [show toString (503 : Int) = "503" from rfl]
    rw [String.append_assoc]

/-- C1 witness: a transport that always answers 503, with
`retryMaxAttempts = 3` and `retryPauseMs = 1000`. -/
theorem complete_always503_witness :
    ∃ msg,
      complete true [] 3 1000 (fun _ _ => ⟨503, "Service Unavailable", .null⟩) "hi" =
        { result := .ok (.error msg), attempts := 3 + 1,
          sleeps := List.replicate 3 1000 } ∧
      ∃ pre post, msg = pre ++ "503" ++ post :=
  complete_always503_exhausts_retries true [] 3 1000
    (fun _ _ => ⟨503, "Service Unavailable", .null⟩) "hi" (fun _ _ => rfl)

/-- C3: when the first response has a non-200 status outside the transient
set, `complete` returns `Result.error` after exactly one HTTP attempt, with
no sleep, and the message embeds the status code and status text. -/
theorem complete_nonTransient_fails_immediately (isOpenAI : Bool)
    (defaultParams : List (String × JsonValue))
    (retryMaxAttempts retryPauseMs : Nat) (transport : Transport) (prompt : String)
    (h200 : (transport 0 (buildParams isOpenAI defaultParams prompt)).status ≠ 200)
    (htr : isTransientHttpError
      (transport 0 (buildParams isOpenAI defaultParams prompt)).status = false) :
    complete isOpenAI defaultParams retryMaxAttempts retryPauseMs transport prompt =
      { result := .ok (.error ("REST API error " ++
          toString (transport 0 (buildParams isOpenAI defaultParams prompt)).status ++
          ": " ++
          (transport 0 (buildParams isOpenAI defaultParams prompt)).statusText)),
        attempts := 1, sleeps := [] } := by
  have hb : ((transport 0 (buildParams isOpenAI defaultParams prompt)).status == 200) =
      false := beq_eq_false_iff_ne.mpr h200
  cases retryMaxAttempts with
  | zero => simp [complete, completeAux, hb, restApiErrorMessage]
  | succ r => simp [complete, completeAux, hb, htr, restApiErrorMessage]

/-- C3 witness: a transport answering 401 Unauthorized, with
`retryMaxAttempts = 3`. -/
theorem complete_nonTransient_witness :
    complete true [] 3 1000 (fun _ _ => ⟨401, "Unauthorized", .null⟩) "hi" =
      { result := .ok (.error ("REST API error " ++ toString (401 : Int) ++ ": " ++
          "Unauthorized")),
        attempts := 1, sleeps := [] } :=
  complete_nonTransient_fails_immediately true [] 3 1000
    (fun _ _ => ⟨401, "Unauthorized", .null⟩) "hi" (by decide) rfl

lemma except_map_ok (f : JsonValue → Result) (a : JsonValue) :
    Except.map f (Except.ok a : Except String JsonValue) = Except.ok (f a) := rfl

lemma completeAux_attempts_le (isOpenAI : Bool) (params : List (String × JsonValue))
    (retryPauseMs : Nat) (transport : Transport) :
    ∀ r attempt,
      (completeAux isOpenAI params retryPauseMs transport attempt r).attempts ≤ r + 1 := by
  intro r
  induction r with
  | zero =>
    intro attempt
    simp only [completeAux]
    split
    · simp
    · simp
  | succ r ih =>
    intro attempt
    simp only [completeAux]
    split
    · simp
    · split
      · simpa using Nat.succ_le_succ (ih (attempt + 1))
      · simp

lemma completeAux_returns_result (isOpenAI : Bool) (params : List (String × JsonValue))
    (retryPauseMs : Nat) (transport : Transport)
    (hok : ∀ n, (transport n params).status = 200 →
      ∃ v, (if isOpenAI then extractOpenAI (transport n params).data
            else extractGenerate (transport n params).data) = Except.ok v) :
    ∀ r attempt, ∃ res,
      (completeAux isOpenAI params retryPauseMs transport attempt r).result =
        Except.ok res := by
  intro r
  induction r with
  | zero =>
    intro attempt
    by_cases hs : (transport attempt params).status = 200
    · obtain ⟨v, hv⟩ := hok attempt hs
      refine ⟨.success v, ?_⟩
      simp [completeAux, hs, hv, except_map_ok]
    · have hb : ((transport attempt params).status == 200) = false :=
        beq_eq_false_iff_ne.mpr hs
      refine ⟨.error (restApiErrorMessage (transport attempt params).status
        (transport attempt params).statusText), ?_⟩
      simp [completeAux, hb]
  | succ r ih =>
    intro attempt
    by_cases hs : (transport attempt params).status = 200
    · obtain ⟨v, hv⟩ := hok attempt hs
      refine ⟨.success v, ?_⟩
      simp [completeAux, hs, hv, except_map_ok]
    · have hb : ((transport attempt params).status == 200) = false :=
        beq_eq_false_iff_ne.mpr hs
      by_cases ht : isTransientHttpError (transport attempt params).status = true
      · obtain ⟨res, hres⟩ := ih (attempt + 1)
        refine ⟨res, ?_⟩
        simp [completeAux, hb, ht, hres]
      · refine ⟨.error (restApiErrorMessage (transport attempt params).status
          (transport attempt params).statusText), ?_⟩
        simp [completeAux, hb, ht]

/-- C4 counterexample: a transport that always answers 200 with body `{}`
makes the OpenAI-style extraction throw a `TypeError`; the call settles with
a thrown fault, not with a `Result` value, refuting the claim that every
response sequence yields exactly one `Result`. -/
theorem complete_malformed200_counterexample :
    (complete true [] 3 1000 (fun _ _ => ⟨200, "OK", .obj []⟩) "p").result =
      Except.error "TypeError: cannot read properties of null or undefined (indexing)" ∧
    ¬ ∃ res, (complete true [] 3 1000 (fun _ _ => ⟨200, "OK", .obj []⟩) "p").result =
        Except.ok res := by
  have h0 : (complete true [] 3 1000 (fun _ _ => ⟨200, "OK", .obj []⟩) "p").result =
      Except.error "TypeError: cannot read properties of null or undefined (indexing)" :=
    rfl
  refine ⟨h0, ?_⟩
  rintro ⟨res, hres⟩
  rw [h0] at hres
  exact Except.noConfusion hres

/-- C4 amended: every `complete` call performs at most
`retryMaxAttempts + 1` HTTP attempts (the retry loop never iterates
unboundedly), and it returns exactly one `Result` (success or error)
provided each 200 response it receives carries a body the extraction can
read without faulting; a malformed 200 body instead propagates a thrown
`TypeError`, still after finitely many attempts. -/
theorem complete_attempts_bounded (isOpenAI : Bool)
    (defaultParams : List (String × JsonValue))
    (retryMaxAttempts retryPauseMs : Nat) (transport : Transport) (prompt : String) :
    (complete isOpenAI defaultParams retryMaxAttempts retryPauseMs transport
        prompt).attempts ≤ retryMaxAttempts + 1 ∧
    ((∀ n, (transport n (buildParams isOpenAI defaultParams prompt)).status = 200 →
        ∃ v, (if isOpenAI then
                extractOpenAI (transport n (buildParams isOpenAI defaultParams prompt)).data
              else
                extractGenerate
                  (transport n (buildParams isOpenAI defaultParams prompt)).data) =
          Except.ok v) →
      ∃ res, (complete isOpenAI defaultParams retryMaxAttempts retryPauseMs transport
          prompt).result = Except.ok res) :=
  ⟨completeAux_attempts_le isOpenAI (buildParams isOpenAI defaultParams prompt)
      retryPauseMs transport retryMaxAttempts 0,
   fun hok => completeAux_returns_result isOpenAI
      (buildParams isOpenAI defaultParams prompt) retryPauseMs transport hok
      retryMaxAttempts 0⟩

/-- C4 witness: the bound and the single returned `Result` at a concrete
transport that always answers 401. -/
theorem complete_attempts_bounded_witness :
    (complete true [] 2 7 (fun _ _ => ⟨401, "Unauthorized", .null⟩) "x").attempts ≤
      2 + 1 ∧
    ∃ res, (complete true [] 2 7 (fun _ _ => ⟨401, "Unauthorized", .null⟩) "x").result =
        Except.ok res :=
  ⟨(complete_attempts_bounded true [] 2 7
      (fun _ _ => ⟨401, "Unauthorized", .null⟩) "x").1,
   (complete_attempts_bounded true [] 2 7
      (fun _ _ => ⟨401, "Unauthorized", .null⟩) "x").2
     (fun n h => absurd h (by decide))⟩

lemma fmap_ok {α β : Type} (f : α → β) (a : α) :
    (f <$> (Except.ok a : Except String α)) = Except.ok (f a) := rfl

lemma fmap_error {α β : Type} (f : α → β) (e : String) :
    (f <$> (Except.error e : Except String α)) = Except.error e := rfl

/-- C8: `createLanguageModel` dispatches to exactly one provider factory, in
priority order OpenAI key first, then Azure key, then Cohere key, and throws
a construction-time fault when no credential key is present or when the
required companion variable of the selected provider (`OPENAI_MODEL` for OpenAI,
`AZURE_OPENAI_ENDPOINT` for Azure) is missing. -/
theorem createLanguageModel_dispatch (env : String → Option String) :
    (truthy (env "OPENAI_API_KEY") = true →
       (env "OPENAI_MODEL" = none →
          createLanguageModel env =
            Except.error "Missing environment variable: OPENAI_MODEL") ∧
       (∀ m, env "OPENAI_MODEL" = some m →
          ∃ k e o, createLanguageModel env = Except.ok (.openAI k m e o))) ∧
    (truthy (env "OPENAI_API_KEY") = false →
     truthy (env "AZURE_OPENAI_API_KEY") = true →
       (env "AZURE_OPENAI_ENDPOINT" = none →
          createLanguageModel env =
            Except.error "Missing environment variable: AZURE_OPENAI_ENDPOINT") ∧
       (∀ ep, env "AZURE_OPENAI_ENDPOINT" = some ep →
          ∃ k, createLanguageModel env = Except.ok (.azure k ep))) ∧
    (truthy (env "OPENAI_API_KEY") = false →
     truthy (env "AZURE_OPENAI_API_KEY") = false →
     truthy (env "COHERE_API_KEY") = true →
       ∃ k e mt, createLanguageModel env = Except.ok (.cohere k "command" e mt)) ∧
    (truthy (env "OPENAI_API_KEY") = false →
     truthy (env "AZURE_OPENAI_API_KEY") = false →
     truthy (env "COHERE_API_KEY") = false →
       createLanguageModel env = Except.error
         "Missing environment variable: OPENAI_API_KEY or AZURE_OPENAI_API_KEY or COHERE_API_KEY") := by
  refine ⟨fun h1 => ?_, fun h1 h2 => ?_, fun h1 h2 h3 => ?_, fun h1 h2 h3 => ?_⟩
  · cases hv : env "OPENAI_API_KEY" with
    | none => rw [hv] at h1; exact absurd h1 (by simp [truthy])
    | some s =>
      rw [hv] at h1
      refine ⟨fun hm => ?_, fun m hm => ?_⟩
      · simp [createLanguageModel, h1, hv, hm, coalesceOrThrow, bind_ok_eq, bind_error_eq,
          fmap_ok, fmap_error]
      · refine ⟨s, (env "OPENAI_ENDPOINT").getD "https://api.openai.com/v1/chat/completions",
          (env "OPENAI_ORGANIZATION").getD "", ?_⟩
        simp [createLanguageModel, h1, hv, hm, coalesceOrThrow, bind_ok_eq, pure_eq_ok,
          fmap_ok, fmap_error]
  · cases hv : env "AZURE_OPENAI_API_KEY" with
    | none => rw [hv] at h2; exact absurd h2 (by simp [truthy])
    | some s =>
      rw [hv] at h2
      refine ⟨fun hm => ?_, fun ep hm => ?_⟩
      · simp [createLanguageModel, h1, h2, hv, hm, coalesceOrThrow, bind_ok_eq,
          bind_error_eq, fmap_ok, fmap_error]
      · refine ⟨s, ?_⟩
        simp [createLanguageModel, h1, h2, hv, hm, coalesceOrThrow, bind_ok_eq, pure_eq_ok,
          fmap_ok, fmap_error]
  · cases hv : env "COHERE_API_KEY" with
    | none => rw [hv] at h3; exact absurd h3 (by simp [truthy])
    | some s =>
      rw [hv] at h3
      refine ⟨s, (env "COHERE_ENDPOINT").getD "https://api.cohere.ai/v1/generate",
        (env "MAX_TOKENS").getD "500", ?_⟩
      simp [createLanguageModel, h1, h2, h3, hv, coalesceOrThrow, bind_ok_eq, pure_eq_ok,
        fmap_ok, fmap_error]
  · simp [createLanguageModel, h1, h2, h3, missingEnvironmentVariable]

/-- C8 witness: an environment holding only `OPENAI_API_KEY` and
`OPENAI_MODEL` dispatches to the OpenAI factory. -/
theorem createLanguageModel_dispatch_witness :
    ∃ k e o, createLanguageModel (fun s =>
        if s = "OPENAI_API_KEY" then some "sk-test"
        else if s = "OPENAI_MODEL" then some "gpt-4" else none) =
      Except.ok (.openAI k "gpt-4" e o) :=
  ((createLanguageModel_dispatch (fun s =>
      if s = "OPENAI_API_KEY" then some "sk-test"
      else if s = "OPENAI_MODEL" then some "gpt-4" else none)).1 rfl).2 "gpt-4" rfl

/-- C10: a credential variable bound to the empty string is treated as
absent: `createLanguageModel` behaves exactly as if the key were undefined
(falling through to the next provider check), and throws the
missing-variable fault when every credential key is empty or undefined. -/
theorem createLanguageModel_empty_credential (env : String → Option String) :
    (∀ key, key = "OPENAI_API_KEY" ∨ key = "AZURE_OPENAI_API_KEY" ∨
        key = "COHERE_API_KEY" →
       env key = some "" →
       createLanguageModel env = createLanguageModel (Function.update env key none)) ∧
    ((env "OPENAI_API_KEY" = some "" ∨ env "OPENAI_API_KEY" = none) →
     (env "AZURE_OPENAI_API_KEY" = some "" ∨ env "AZURE_OPENAI_API_KEY" = none) →
     (env "COHERE_API_KEY" = some "" ∨ env "COHERE_API_KEY" = none) →
       createLanguageModel env = Except.error
         "Missing environment variable: OPENAI_API_KEY or AZURE_OPENAI_API_KEY or COHERE_API_KEY") := by
  constructor
  · rintro key (rfl | rfl | rfl) h
    · have hupd : ∀ k2 : String, k2 ≠ "OPENAI_API_KEY" →
          Function.update env "OPENAI_API_KEY" none k2 = env k2 :=
        fun k2 hk2 => Function.update_noteq hk2 none env
      simp only [createLanguageModel]
      rw [hupd "OPENAI_MODEL" (by decide), hupd "OPENAI_ENDPOINT" (by decide),
        hupd "OPENAI_ORGANIZATION" (by decide),
        hupd "AZURE_OPENAI_API_KEY" (by decide),
        hupd "AZURE_OPENAI_ENDPOINT" (by decide),
        hupd "COHERE_API_KEY" (by decide), hupd "COHERE_ENDPOINT" (by decide),
        hupd "MAX_TOKENS" (by decide),
        Function.update_same, h]
      simp [truthy]
    · have hupd : ∀ k2 : String, k2 ≠ "AZURE_OPENAI_API_KEY" →
          Function.update env "AZURE_OPENAI_API_KEY" none k2 = env k2 :=
        fun k2 hk2 => Function.update_noteq hk2 none env
      simp only [createLanguageModel]
      rw [hupd "OPENAI_API_KEY" (by decide), hupd "OPENAI_MODEL" (by decide),
        hupd "OPENAI_ENDPOINT" (by decide), hupd "OPENAI_ORGANIZATION" (by decide),
        hupd "AZURE_OPENAI_ENDPOINT" (by decide),
        hupd "COHERE_API_KEY" (by decide), hupd "COHERE_ENDPOINT" (by decide),
        hupd "MAX_TOKENS" (by decide),
        Function.update_same, h]
      simp [truthy]
    · have hupd : ∀ k2 : String, k2 ≠ "COHERE_API_KEY" →
          Function.update env "COHERE_API_KEY" none k2 = env k2 :=
        fun k2 hk2 => Function.update_noteq hk2 none env
      simp only [createLanguageModel]
      rw [hupd "OPENAI_API_KEY" (by decide), hupd "OPENAI_MODEL" (by decide),
        hupd "OPENAI_ENDPOINT" (by decide), hupd "OPENAI_ORGANIZATION" (by decide),
        hupd "AZURE_OPENAI_API_KEY" (by decide),
        hupd "AZURE_OPENAI_ENDPOINT" (by decide), hupd "COHERE_ENDPOINT" (by decide),
        hupd "MAX_TOKENS" (by decide),
        Function.update_same, h]
      simp [truthy]
  · intro hO hA hC
    have t1 : truthy (env "OPENAI_API_KEY") = false := by
      rcases hO with h | h <;> rw [h] <;> rfl
    have t2 : truthy (env "AZURE_OPENAI_API_KEY") = false := by
      rcases hA with h | h <;> rw [h] <;> rfl
    have t3 : truthy (env "COHERE_API_KEY") = false := by
      rcases hC with h | h <;> rw [h] <;> rfl
    simp [createLanguageModel, t1, t2, t3, missingEnvironmentVariable]

/-- C10 witness: with every environment variable bound to the empty string,
`createLanguageModel` throws the missing-variable fault. -/
theorem createLanguageModel_empty_credential_witness :
    createLanguageModel (fun _ => some "") = Except.error
      "Missing environment variable: OPENAI_API_KEY or AZURE_OPENAI_API_KEY or COHERE_API_KEY" :=
  (createLanguageModel_empty_credential (fun _ => some "")).2
    (Or.inl rfl) (Or.inl rfl) (Or.inl rfl)
